import Mathlib

/-!
Shallow embedding of the currency-conversion server (src/server.js) of the
DaSponge repository: the rate cache, the inbuilt market-analysis generator,
the Gemini wrapper with its fallback, and the conversion endpoint handler.

Numbers are modelled as rationals; JavaScript values that can be undefined or
non-numeric are modelled by explicit inductive types.  Wall-clock time is a
natural number of seconds.  External round trips (the rate provider and the
generative-text provider) are passed in as explicit outcome parameters, and
the handler records an effect trace of its cache accesses and network calls.

JavaScript property access on the object literal of line 29 walks the
prototype chain: for a code equal to an Object.prototype property name
(such as "toString") the lookup yields an inherited truthy member, the
`|| default` of lines 37-38 does not fire, and `.drivers.slice(0, 2)` on
line 43 throws a TypeError.  The embedding models that access faithfully,
so the inbuilt generator and the commentary provider return an `Option`:
`none` is the thrown TypeError.
-/

namespace DaSponge

/-- A JavaScript value appearing as the `rate` argument of
`generateInbuiltAnalysis` / `getMarketAnalysis`: a finite number, a string
that `parseFloat` cannot parse (yielding NaN), `undefined`
(`parseFloat(undefined)` is NaN), or an infinity. -/
inductive RateInput where
  | num (q : ℚ)
  | nonNumeric (s : String)
  | undef
  | posInf
  | negInf
deriving DecidableEq

/-- The string interpolation `${rate}` of the rate value into the template. -/
def rateDisplay : RateInput → String
  | .num q => toString q
  | .nonNumeric s => s
  | .undef => "undefined"
  | .posInf => "Infinity"
  | .negInf => "-Infinity"

/-- The JavaScript test `parseFloat(rate) > 1` (line 40 of server.js):
NaN compares false, so a non-numeric or undefined rate yields `false`. -/
def parseFloatGtOne : RateInput → Bool
  | .num q => decide (1 < q)
  | .nonNumeric _ => false
  | .undef => false
  | .posInf => true
  | .negInf => false

/-- The static `currencies` table of `generateInbuiltAnalysis`
(lines 29-35 of server.js): code ↦ (strength, drivers). -/
def currencies : List (String × String × List String) :=
  [("USD", ("strong", ["Fed policy", "economic growth", "safe-haven demand"])),
   ("EUR", ("moderate", ["ECB policy", "energy prices", "manufacturing data"])),
   ("GBP", ("moderate", ["BoE decisions", "Brexit impacts", "services sector"])),
   ("JPY", ("weak", ["BoJ ultra-loose policy", "trade balance", "risk sentiment"])),
   ("AUD", ("commodity-linked", ["China demand", "commodity prices", "RBA stance"]))]

/-- The default (strength, drivers) of lines 37-38 of server.js, used when
`currencies[c]` is falsy (the code is neither an own key nor an inherited
Object.prototype property name). -/
def defaultInfo : String × List String :=
  ("neutral", ["interest rates", "economic data", "geopolitical factors"])

/-- Property names the object literal of line 29 inherits from
Object.prototype.  For these codes `currencies[c]` yields a truthy
inherited member (a function, or for the last entry the prototype object
itself), so the `|| default` of lines 37-38 does not fire. -/
def objectPrototypeKeys : List String :=
  ["constructor", "hasOwnProperty", "isPrototypeOf", "propertyIsEnumerable",
   "toLocaleString", "toString", "valueOf", "__defineGetter__",
   "__defineSetter__", "__lookupGetter__", "__lookupSetter__", "__proto__"]

/-- The JavaScript value of `baseInfo` / `targetInfo` after lines 37-38 of
server.js, as seen by the later field reads: `.strength` and `.drivers`
are `undefined` (`none`) when the lookup hit an inherited Object.prototype
member, and defined for own entries and for the default object. -/
structure CurrencyInfo where
  strength : Option String
  drivers : Option (List String)
deriving DecidableEq

/-- Lookup `currencies[c] || default` (lines 37-38 of server.js), with the
prototype chain of the object literal modelled: own keys give the table
entry, Object.prototype property names give a truthy member whose
`.strength` and `.drivers` are undefined, anything else gives the default. -/
def currencyInfo (c : String) : CurrencyInfo :=
  match currencies.find? (fun e => e.1 == c) with
  | some e => ⟨some e.2.1, some e.2.2⟩
  | none =>
    if objectPrototypeKeys.contains c then ⟨none, none⟩
    else ⟨some defaultInfo.1, some defaultInfo.2⟩

/-- The JavaScript value of `baseInfo.strength` for a code. -/
def strengthOf (c : String) : Option String := (currencyInfo c).strength

/-- The JavaScript value of `baseInfo.drivers` for a code. -/
def driversOf (c : String) : Option (List String) := (currencyInfo c).drivers

/-- Join `drivers.slice(0, 2).join(' and ')` (line 43 of server.js). -/
def joinTwo (l : List String) : String := String.intercalate " and " (l.take 2)

/-- The trend label of line 40 of server.js:
`parseFloat(rate) > 1 ? "strengthening" : "weakening"`. -/
def inbuiltTrend (rate : RateInput) : String :=
  if parseFloatGtOne rate then "strengthening" else "weakening"

/-- The outlook label of line 41 of server.js:
`baseInfo.strength === "strong" && targetInfo.strength !== "strong"
  ? "bullish" : "neutral"`; strict equality of `undefined` against
"strong" is false. -/
def inbuiltOutlook (b t : String) : String :=
  if strengthOf b == some "strong" && !(strengthOf t == some "strong")
  then "bullish" else "neutral"

/-- Function `generateInbuiltAnalysis(baseCurrency, targetCurrency, rate)`
(lines 28-44 of server.js): the template string of line 43.  The result is
`none` when `baseInfo.drivers` or `targetInfo.drivers` is `undefined`
(an inherited Object.prototype member), because `.slice(0, 2)` on line 43
then throws a TypeError. -/
def generateInbuiltAnalysis (b t : String) (rate : RateInput) : Option String :=
  match driversOf b, driversOf t with
  | some db, some dt =>
      some ("The " ++ b ++ " is currently " ++ inbuiltTrend rate ++ " against " ++ t ++
        " at 1:" ++ rateDisplay rate ++ ". Key drivers include " ++
        joinTwo db ++ " for " ++ b ++ " and " ++
        joinTwo dt ++ " for " ++ t ++
        ". Short-term outlook appears " ++ inbuiltOutlook b t ++
        ", though traders should monitor upcoming economic releases for confirmation. This automated analysis is based on typical market drivers for these currencies.")
  | _, _ => none

/-- Function `getMarketAnalysis(baseCurrency, targetCurrency, rate)`
(lines 47-63 of server.js).  The single round trip to the generative-text
service is passed in as `external`: `some text` when
`model.generateContent` and response extraction succeed, `none` on any
thrown error (timeout, quota, malformed response, network failure), in
which case the catch block calls the inbuilt generator.  A TypeError
thrown by that fallback INSIDE the catch block propagates out of
`getMarketAnalysis` (result `none` here) and rejects the promise. -/
def getMarketAnalysis (b t : String) (rate : RateInput)
    (external : Option String) : Option String :=
  match external with
  | some text => some text
  | none => generateInbuiltAnalysis b t rate

/-- Constant `stdTTL: 600` of the NodeCache (line 13 of server.js), in seconds. -/
def TTL : ℕ := 600

/-- Line 17 of server.js. -/
def CACHE_PREFIX : String := "FX_RATE_"

/-- Line 69 of server.js: the template literal
`FX_RATE_${from_currency}_${to_currency}`. -/
def cacheKey (fromC toC : String) : String :=
  CACHE_PREFIX ++ fromC ++ "_" ++ toC

/-- The value stored in the rate cache (lines 99-103 of server.js).
`rate` is `none` when the stored JavaScript value is `undefined` (the
`rates` object of the upstream body lacked the target code). -/
structure RateQuote where
  rate : Option ℚ
  analysis : String
  timestamp : ℕ
deriving DecidableEq

/-- The NodeCache state: entries are (key, value, insertion time); the most
recent entry for a key comes first. -/
structure CacheState where
  entries : List (String × RateQuote × ℕ)
deriving DecidableEq

/-- The cache at server start. -/
def emptyCache : CacheState := ⟨[]⟩

/-- NodeCache `has`/`get` with lazy expiry: an entry is served while
`now ≤ insertedAt + TTL` and behaves as absent afterwards. -/
def cacheGet (st : CacheState) (key : String) (now : ℕ) : Option RateQuote :=
  match st.entries.find? (fun e => e.1 == key) with
  | some e => if now ≤ e.2.2 + TTL then some e.2.1 else none
  | none => none

/-- NodeCache `set`: stores with TTL from call time, overwriting any
existing entry for that key. -/
def cacheSet (st : CacheState) (key : String) (q : RateQuote) (now : ℕ) :
    CacheState :=
  ⟨(key, q, now) :: st.entries.filter (fun e => e.1 != key)⟩

/-- The JavaScript value bound to `amount` from the JSON body, classified by
how the validation of line 72 and the later arithmetic see it: absent
(`undefined`), a value coercing to NaN, a value coercing to the finite
number `q`, or a value coercing to an infinity (e.g. the string "1e999"). -/
inductive AmountInput where
  | missing
  | nonNumeric (s : String)
  | num (q : ℚ)
  | posInf
  | negInf
deriving DecidableEq

/-- Line 72 of server.js: `!amount || isNaN(amount) || amount <= 0`.
`missing` and NaN are caught by `!amount`/`isNaN`; a finite `q` is invalid
exactly when `q ≤ 0` (`!amount` catches 0, `amount <= 0` the negatives);
`Infinity` passes all three tests; `-Infinity` fails `amount <= 0`. -/
def amountInvalid : AmountInput → Bool
  | .missing => true
  | .nonNumeric _ => true
  | .num q => decide (q ≤ 0)
  | .posInf => false
  | .negInf => true

/-- Errors surfaced by the conversion endpoint. -/
inductive ConvertErr where
  | invalidAmount
  | upstream (status : ℕ)
deriving DecidableEq

/-- Padding `statusCode.toString().padStart(3, '0')` (line 120 of server.js). -/
def pad3 (n : ℕ) : String :=
  let s := toString n
  if 3 ≤ s.length then s else String.mk (List.replicate (3 - s.length) '0') ++ s

/-- The machine-readable `code` field of an error response
(lines 75 and 120 of server.js). -/
def errCode : ConvertErr → String
  | .invalidAmount => "INV-AMT"
  | .upstream s => "SRV-" ++ pad3 s

/-- The HTTP status of an error response (lines 73 and 118 of server.js). -/
def errHttpStatus : ConvertErr → ℕ
  | .invalidAmount => 400
  | .upstream s => s

/-- The JSON body of a successful conversion response.  The cache-hit
response (lines 82-87) spreads the cached object and therefore carries no
`from_currency`, `to_currency` or `source` field, and echoes the parsed
amount; the fresh response (lines 105-113) carries all three and no echo.
`Option` marks the fields absent on one of the two paths; in particular
`cached` is `some true` on the hit path (line 84) and ABSENT (`none`) on
the fresh path, whose response object has no `cached` key at all.
`converted_amount` is `none` when `(amount * rate).toFixed(2)` is not a
finite decimal ("Infinity" or "NaN"). -/
structure ConvertOk where
  from_currency : Option String
  to_currency : Option String
  amountEcho : Option AmountInput
  rate : Option ℚ
  converted_amount : Option ℚ
  analysis : String
  timestamp : ℕ
  cached : Option Bool
  source : Option String
deriving DecidableEq

/-- Outcome of the endpoint handler. -/
inductive ConvertResult where
  | ok (r : ConvertOk)
  | err (e : ConvertErr)
deriving DecidableEq

/-- Outcome of the single GET to the rate provider (lines 91-93 of
server.js): `err status` when axios throws (carrying
`error.response?.status` when present), `ok rates` when the promise
resolves, where `rates` is `data.rates[to_currency]` — `none` when the
`rates` mapping lacks the target code. -/
inductive FetchResult where
  | ok (rate : Option ℚ)
  | err (status : Option ℕ)
deriving DecidableEq

/-- One observable side effect of a request, in program order. -/
inductive Effect where
  | cacheRead (key : String)
  | cacheWrite (key : String)
  | rateFetch (fromC toC : String)
  | aiCall
deriving DecidableEq

/-- Rounding to `n` decimal digits: the semantics of
`Number.prototype.toFixed(n)` (and of `parseFloat(x.toFixed(n))`) on the
positive values arising here — nearest, not truncation. -/
def roundTo (n : ℕ) (q : ℚ) : ℚ := ((round (q * 10 ^ n) : ℤ) : ℚ) / 10 ^ n

/-- Value of `(amount * rate).toFixed(2)` as a rational; `none` when the
amount or the rate is not a finite number (the string is then "Infinity"
or "NaN"). -/
def convertedAmount (amount : AmountInput) (rate : Option ℚ) : Option ℚ :=
  match amount, rate with
  | .num q, some r => some (roundTo 2 (q * r))
  | _, _ => none

/-- Result, final cache state and effect trace of one request. -/
structure ConvertOutcome where
  result : ConvertResult
  cache : CacheState
  effects : List Effect
deriving DecidableEq

/-- The error surfaced by a request, if any. -/
def surfaced (o : ConvertOutcome) : Option ConvertErr :=
  match o.result with
  | .ok _ => none
  | .err e => some e

/-- Number of live rate fetches in an effect trace. -/
def countRateFetches (l : List Effect) : ℕ :=
  (l.filter (fun e => match e with | .rateFetch _ _ => true | _ => false)).length

/-- Number of generative-text calls in an effect trace. -/
def countAiCalls (l : List Effect) : ℕ :=
  (l.filter (fun e => match e with | .aiCall => true | _ => false)).length

/-- The handler of `POST /api/convert` (lines 66-123 of server.js), with
the two external round trips passed in as `fetch` and `gemini`.

Program order: the cache key is computed (line 69, a pure string
operation), the amount is validated (line 72) and an invalid amount
returns 400/INV-AMT with no cache access and no network call; on a cache
hit (lines 80-88) the cached quote is returned with `cached: true`, the
stored full-precision rate, the stored analysis and the stored timestamp,
and a recomputed `converted_amount`; on a miss the rate is fetched — an
axios error reaches the catch block (lines 115-122) and surfaces
`SRV-<status>` (status defaulting to 500) leaving the cache unchanged.
On a resolved fetch, `rates[to_currency]` is extracted (line 95,
`undefined` when the key is absent) and the analysis is awaited
(line 96): if `getMarketAnalysis` throws (its fallback hit an inherited
Object.prototype member), the outer catch surfaces `SRV-500` with the
cache still unchanged; otherwise the quote is cached (lines 99-103) and
the response is built — the fresh response carries NO `cached` field.
When the extracted rate was `undefined`, the cache write still happens
and only then `rate.toFixed(4)` on line 108 throws a TypeError, so that
request surfaces `SRV-500` while the cache keeps the poisoned entry. -/
def convert (st : CacheState) (now : ℕ) (amount : AmountInput)
    (fromC toC : String) (fetch : FetchResult) (gemini : Option String) :
    ConvertOutcome :=
  let key := cacheKey fromC toC
  if amountInvalid amount then
    ⟨.err .invalidAmount, st, []⟩
  else
    match cacheGet st key now with
    | some q =>
        ⟨.ok { from_currency := none, to_currency := none,
               amountEcho := some amount,
               rate := q.rate,
               converted_amount := convertedAmount amount q.rate,
               analysis := q.analysis, timestamp := q.timestamp,
               cached := some true, source := none },
         st, [.cacheRead key]⟩
    | none =>
        match fetch with
        | .err s =>
            ⟨.err (.upstream (s.getD 500)), st,
             [.cacheRead key, .rateFetch fromC toC]⟩
        | .ok none =>
            match getMarketAnalysis fromC toC .undef gemini with
            | none =>
                ⟨.err (.upstream 500), st,
                 [.cacheRead key, .rateFetch fromC toC, .aiCall]⟩
            | some analysis =>
                ⟨.err (.upstream 500),
                 cacheSet st key ⟨none, analysis, now⟩ now,
                 [.cacheRead key, .rateFetch fromC toC, .aiCall,
                  .cacheWrite key]⟩
        | .ok (some r) =>
            match getMarketAnalysis fromC toC (.num r) gemini with
            | none =>
                ⟨.err (.upstream 500), st,
                 [.cacheRead key, .rateFetch fromC toC, .aiCall]⟩
            | some analysis =>
                ⟨.ok { from_currency := some fromC, to_currency := some toC,
                       amountEcho := none,
                       rate := some (roundTo 4 r),
                       converted_amount := convertedAmount amount (some r),
                       analysis := analysis, timestamp := now,
                       cached := none, source := some "Frankfurter.app" },
                 cacheSet st key ⟨some r, analysis, now⟩ now,
                 [.cacheRead key, .rateFetch fromC toC, .aiCall,
                  .cacheWrite key]⟩

/-- A strictly positive amount passes the validation of line 72. -/
theorem amountInvalid_num_pos {q : ℚ} (hq : 0 < q) :
    amountInvalid (.num q) = false := by
  simp [amountInvalid, not_le.mpr hq]

/-- When both codes have defined drivers, the commentary step yields text
whatever the generative-text outcome. -/
theorem getMarketAnalysis_some (b t : String) (r : RateInput)
    (g : Option String) (hb : (driversOf b).isSome)
    (ht : (driversOf t).isSome) :
    ∃ a, getMarketAnalysis b t r g = some a := by
  cases g with
  | some text => exact ⟨text, rfl⟩
  | none =>
    obtain ⟨db, hdb⟩ := Option.isSome_iff_exists.mp hb
    obtain ⟨dt, hdt⟩ := Option.isSome_iff_exists.mp ht
    simp [getMarketAnalysis, generateInbuiltAnalysis, hdb, hdt]

/-- Shape of the handler outcome on a valid amount, a cache miss, a
resolved fetch carrying a rate for the target code, and a commentary step
that yields text. -/
theorem convert_miss_ok (st : CacheState) (now : ℕ) (q : ℚ)
    (fromC toC : String) (r : ℚ) (g : Option String) (A : String)
    (hq : 0 < q)
    (hmiss : cacheGet st (cacheKey fromC toC) now = none)
    (hA : getMarketAnalysis fromC toC (.num r) g = some A) :
    convert st now (.num q) fromC toC (.ok (some r)) g =
      ⟨.ok { from_currency := some fromC, to_currency := some toC,
             amountEcho := none,
             rate := some (roundTo 4 r),
             converted_amount := some (roundTo 2 (q * r)),
             analysis := A,
             timestamp := now, cached := none,
             source := some "Frankfurter.app" },
       cacheSet st (cacheKey fromC toC) ⟨some r, A, now⟩ now,
       [.cacheRead (cacheKey fromC toC), .rateFetch fromC toC, .aiCall,
        .cacheWrite (cacheKey fromC toC)]⟩ := by
  simp [convert, amountInvalid_num_pos hq, hmiss, hA, convertedAmount]

/-- Shape of the handler outcome on a valid amount and a cache hit. -/
theorem convert_hit (st : CacheState) (now : ℕ) (amount : AmountInput)
    (fromC toC : String) (fetch : FetchResult) (g : Option String)
    (q : RateQuote) (hv : amountInvalid amount = false)
    (hhit : cacheGet st (cacheKey fromC toC) now = some q) :
    convert st now amount fromC toC fetch g =
      ⟨.ok { from_currency := none, to_currency := none,
             amountEcho := some amount,
             rate := q.rate,
             converted_amount := convertedAmount amount q.rate,
             analysis := q.analysis, timestamp := q.timestamp,
             cached := some true, source := none },
       st, [.cacheRead (cacheKey fromC toC)]⟩ := by
  simp [convert, hv, hhit]

/-- A freshly written entry is served for its own key while within TTL. -/
theorem cacheGet_set_self (st : CacheState) (key : String) (q : RateQuote)
    (now now' : ℕ) (h : now' ≤ now + TTL) :
    cacheGet (cacheSet st key q now) key now' = some q := by
  simp [cacheGet, cacheSet, h]

/-- Counterexample for C1 as stated: the fresh (non-cached) response of
lines 105-113 contains NO `cached` field at all — only the hit path
(line 84) sets `cached: true` — so a fresh result does not satisfy
`cached = false`; the field is simply absent. -/
theorem C1_counterexample :
    (convert emptyCache 0 (.num 100) "USD" "EUR" (.ok (some (92/100)))
        (some "ai analysis")).result =
      .ok { from_currency := some "USD", to_currency := some "EUR",
            amountEcho := none,
            rate := some (roundTo 4 (92/100)),
            converted_amount := some (roundTo 2 (100 * (92/100))),
            analysis := "ai analysis",
            timestamp := 0, cached := none,
            source := some "Frankfurter.app" } ∧
    (none : Option Bool) ≠ some false :=
  ⟨rfl, by decide⟩

/-- Claim C1 as amended: on a valid amount, a cache miss, a successful
live fetch returning rate `r`, and a commentary step that yields text, the
response has `converted_amount` equal to `amount * r` rounded to 2 decimal
digits, NO `cached` field (the field appears only on cache hits), `source`
the rate provider's identity, and a `rate` field rounded to 4 decimal
digits. -/
theorem C1_amended_fresh_conversion (st : CacheState) (now : ℕ) (q : ℚ)
    (fromC toC : String) (r : ℚ) (g : Option String) (A : String)
    (hq : 0 < q)
    (hmiss : cacheGet st (cacheKey fromC toC) now = none)
    (hA : getMarketAnalysis fromC toC (.num r) g = some A) :
    (convert st now (.num q) fromC toC (.ok (some r)) g).result =
      .ok { from_currency := some fromC, to_currency := some toC,
            amountEcho := none,
            rate := some (roundTo 4 r),
            converted_amount := some (roundTo 2 (q * r)),
            analysis := A,
            timestamp := now, cached := none,
            source := some "Frankfurter.app" } := by
  rw [convert_miss_ok st now q fromC toC r g A hq hmiss hA]

/-- Witness for C1 (amended) at the spec's own example: 100 USD→EUR at
live rate 0.92 on an empty cache, with a successful generative call. -/
theorem C1_witness :
    (convert emptyCache 0 (.num 100) "USD" "EUR" (.ok (some (92/100)))
        (some "ai analysis")).result =
      .ok { from_currency := some "USD", to_currency := some "EUR",
            amountEcho := none,
            rate := some (roundTo 4 (92/100)),
            converted_amount := some (roundTo 2 (100 * (92/100))),
            analysis := "ai analysis",
            timestamp := 0, cached := none,
            source := some "Frankfurter.app" } :=
  C1_amended_fresh_conversion emptyCache 0 100 "USD" "EUR" (92/100)
    (some "ai analysis") "ai analysis" (by norm_num) rfl rfl

/-- Claim C2: a second conversion for the same (base, target) within the
600-second TTL window is served from the cache: `cached = true`, the
stored full-precision rate, the stored analysis, `converted_amount`
recomputed from the stored rate, the original cache timestamp, and a
single live fetch across the two calls. -/
theorem C2_cache_hit_idempotence (st : CacheState) (t1 t2 : ℕ)
    (q1 q2 : ℚ) (fromC toC : String) (r : ℚ) (g1 g2 : Option String)
    (f2 : FetchResult) (A : String) (h1 : 0 < q1) (h2 : 0 < q2)
    (hmiss : cacheGet st (cacheKey fromC toC) t1 = none)
    (hA : getMarketAnalysis fromC toC (.num r) g1 = some A)
    (httl : t2 ≤ t1 + TTL) :
    (convert (convert st t1 (.num q1) fromC toC (.ok (some r)) g1).cache
        t2 (.num q2) fromC toC f2 g2).result =
      .ok { from_currency := none, to_currency := none,
            amountEcho := some (.num q2),
            rate := some r,
            converted_amount := some (roundTo 2 (q2 * r)),
            analysis := A,
            timestamp := t1, cached := some true, source := none } ∧
    countRateFetches
      ((convert st t1 (.num q1) fromC toC (.ok (some r)) g1).effects ++
       (convert (convert st t1 (.num q1) fromC toC (.ok (some r)) g1).cache
          t2 (.num q2) fromC toC f2 g2).effects) = 1 := by
  rw [convert_miss_ok st t1 q1 fromC toC r g1 A h1 hmiss hA]
  rw [convert_hit _ t2 (.num q2) fromC toC f2 g2 _
    (amountInvalid_num_pos h2) (cacheGet_set_self st _ _ t1 t2 httl)]
  exact ⟨rfl, rfl⟩

/-- Witness for C2: two calls USD→EUR at times 0 and 300 on an empty
cache, live rate 0.92, first generative call succeeding, second fetch
outcome irrelevant. -/
theorem C2_witness :
    (convert (convert emptyCache 0 (.num 100) "USD" "EUR" (.ok (some (92/100)))
        (some "ai analysis")).cache
        300 (.num 100) "USD" "EUR" (.err none) none).result =
      .ok { from_currency := none, to_currency := none,
            amountEcho := some (.num 100),
            rate := some (92/100),
            converted_amount := some (roundTo 2 (100 * (92/100))),
            analysis := "ai analysis",
            timestamp := 0, cached := some true, source := none } ∧
    countRateFetches
      ((convert emptyCache 0 (.num 100) "USD" "EUR" (.ok (some (92/100)))
          (some "ai analysis")).effects ++
       (convert (convert emptyCache 0 (.num 100) "USD" "EUR" (.ok (some (92/100)))
          (some "ai analysis")).cache
          300 (.num 100) "USD" "EUR" (.err none) none).effects) = 1 :=
  C2_cache_hit_idempotence emptyCache 0 300 100 100 "USD" "EUR" (92/100)
    (some "ai analysis") none (.err none) "ai analysis" (by norm_num)
    (by norm_num) rfl rfl (by norm_num [TTL])

/-- Claim C3: an entry read more than 600 seconds after its insertion
behaves as absent; a conversion for that key is then a fresh miss that
performs exactly one live fetch and overwrites the entry. -/
theorem C3_ttl_expiry (rest : List (String × RateQuote × ℕ))
    (q : RateQuote) (t0 now : ℕ) (amt : ℚ) (fromC toC : String) (r : ℚ)
    (g : Option String) (A : String) (hexp : t0 + TTL < now)
    (hamt : 0 < amt)
    (hA : getMarketAnalysis fromC toC (.num r) g = some A) :
    cacheGet ⟨(cacheKey fromC toC, q, t0) :: rest⟩ (cacheKey fromC toC) now = none ∧
    countRateFetches
      (convert ⟨(cacheKey fromC toC, q, t0) :: rest⟩ now (.num amt) fromC toC
        (.ok (some r)) g).effects = 1 ∧
    cacheGet
      (convert ⟨(cacheKey fromC toC, q, t0) :: rest⟩ now (.num amt) fromC toC
        (.ok (some r)) g).cache (cacheKey fromC toC) now =
      some ⟨some r, A, now⟩ := by
  have hnone :
      cacheGet ⟨(cacheKey fromC toC, q, t0) :: rest⟩ (cacheKey fromC toC) now = none := by
    simp [cacheGet, Nat.not_le.mpr hexp]
  refine ⟨hnone, ?_, ?_⟩
  · rw [convert_miss_ok _ now amt fromC toC r g A hamt hnone hA]
    rfl
  · rw [convert_miss_ok _ now amt fromC toC r g A hamt hnone hA]
    exact cacheGet_set_self _ _ _ now now (by omega)

/-- Witness for C3: an entry inserted at time 0 read at time 601, the
generative call succeeding on the refetch. -/
theorem C3_witness :
    cacheGet ⟨[(cacheKey "USD" "EUR", ⟨some 1, "old", 0⟩, 0)]⟩ (cacheKey "USD" "EUR") 601 = none ∧
    countRateFetches
      (convert ⟨[(cacheKey "USD" "EUR", ⟨some 1, "old", 0⟩, 0)]⟩ 601 (.num 5) "USD" "EUR"
        (.ok (some 2)) (some "ai analysis")).effects = 1 ∧
    cacheGet
      (convert ⟨[(cacheKey "USD" "EUR", ⟨some 1, "old", 0⟩, 0)]⟩ 601 (.num 5) "USD" "EUR"
        (.ok (some 2)) (some "ai analysis")).cache (cacheKey "USD" "EUR") 601 =
      some ⟨some 2, "ai analysis", 601⟩ :=
  C3_ttl_expiry [] ⟨some 1, "old", 0⟩ 0 601 5 "USD" "EUR" 2
    (some "ai analysis") "ai analysis" (by norm_num [TTL]) (by norm_num) rfl

/-- Counterexample for C4 as stated: for a base code colliding with an
Object.prototype property name, the fallback itself throws a TypeError
inside the catch block, the promise rejects, and the endpoint surfaces
SRV-500 — while the same request with a successful generative call
returns 200.  So `getMarketAnalysis` CAN fail, and a commentary-provider
failure IS surfaced, depending on the generative outcome. -/
theorem C4_counterexample :
    getMarketAnalysis "toString" "EUR" (.num 2) none = none ∧
    surfaced (convert emptyCache 0 (.num 100) "toString" "EUR" (.ok (some 2)) none) =
      some (.upstream 500) ∧
    surfaced (convert emptyCache 0 (.num 100) "toString" "EUR" (.ok (some 2))
        (some "ai analysis")) = none ∧
    (convert emptyCache 0 (.num 100) "toString" "EUR" (.ok (some 2)) none).cache =
      emptyCache :=
  ⟨rfl, rfl, rfl, rfl⟩

/-- Claim C4 as amended: with no successful external completion the
commentary provider returns exactly the inbuilt synthesis (no retry of
the external call — at most one generative-text call per request), and
for currency codes whose lookups have defined drivers (no collision with
an Object.prototype property name) the fallback yields text and the
surfaced error of a request is independent of the commentary outcome;
for colliding codes the fallback throws and SRV-500 surfaces. -/
theorem C4_amended_commentary_fallback :
    (∀ (b t : String) (r : RateInput),
      getMarketAnalysis b t r none = generateInbuiltAnalysis b t r) ∧
    (∀ (st : CacheState) (now : ℕ) (a : AmountInput) (fromC toC : String)
       (fetch : FetchResult) (g : Option String),
      countAiCalls (convert st now a fromC toC fetch g).effects ≤ 1) ∧
    (∀ (st : CacheState) (now : ℕ) (a : AmountInput) (fromC toC : String)
       (fetch : FetchResult) (g1 g2 : Option String),
      (driversOf fromC).isSome → (driversOf toC).isSome →
      surfaced (convert st now a fromC toC fetch g1) =
        surfaced (convert st now a fromC toC fetch g2)) := by
  refine ⟨fun b t r => rfl, ?_, ?_⟩
  · intro st now a fromC toC fetch g
    by_cases hv : amountInvalid a = true
    · simp [convert, hv, countAiCalls]
    · rw [Bool.not_eq_true] at hv
      cases hc : cacheGet st (cacheKey fromC toC) now with
      | some q => simp [convert, hv, hc, countAiCalls]
      | none =>
        cases fetch with
        | err s => simp [convert, hv, hc, countAiCalls]
        | ok r =>
          cases r with
          | none =>
            cases hg : getMarketAnalysis fromC toC .undef g with
            | none => simp [convert, hv, hc, hg, countAiCalls]
            | some a1 => simp [convert, hv, hc, hg, countAiCalls]
          | some r =>
            cases hg : getMarketAnalysis fromC toC (.num r) g with
            | none => simp [convert, hv, hc, hg, countAiCalls]
            | some a1 => simp [convert, hv, hc, hg, countAiCalls]
  · intro st now a fromC toC fetch g1 g2 hfb hft
    by_cases hv : amountInvalid a = true
    · simp [convert, hv]
    · rw [Bool.not_eq_true] at hv
      cases hc : cacheGet st (cacheKey fromC toC) now with
      | some q => simp [convert, hv, hc]
      | none =>
        cases fetch with
        | err s => simp [convert, hv, hc, surfaced]
        | ok r =>
          cases r with
          | none =>
            obtain ⟨a1, ha1⟩ := getMarketAnalysis_some fromC toC .undef g1 hfb hft
            obtain ⟨a2, ha2⟩ := getMarketAnalysis_some fromC toC .undef g2 hfb hft
            simp [convert, hv, hc, ha1, ha2, surfaced]
          | some r =>
            obtain ⟨a1, ha1⟩ := getMarketAnalysis_some fromC toC (.num r) g1 hfb hft
            obtain ⟨a2, ha2⟩ := getMarketAnalysis_some fromC toC (.num r) g2 hfb hft
            simp [convert, hv, hc, ha1, ha2, surfaced]

/-- Witness for C4 (amended) at the non-colliding pair (USD, EUR): the
fallback equation, the single-call bound, and surfaced-error independence
between a failed and a successful generative outcome. -/
theorem C4_witness :
    getMarketAnalysis "USD" "EUR" (.num 2) none =
      generateInbuiltAnalysis "USD" "EUR" (.num 2) ∧
    countAiCalls
      (convert emptyCache 0 (.num 100) "USD" "EUR" (.ok (some 2)) none).effects ≤ 1 ∧
    surfaced (convert emptyCache 0 (.num 100) "USD" "EUR" (.ok (some 2)) none) =
      surfaced (convert emptyCache 0 (.num 100) "USD" "EUR" (.ok (some 2))
        (some "ai analysis")) := by
  obtain ⟨h1, h2, h3⟩ := C4_amended_commentary_fallback
  exact ⟨h1 "USD" "EUR" (.num 2),
    h2 emptyCache 0 (.num 100) "USD" "EUR" (.ok (some 2)) none,
    h3 emptyCache 0 (.num 100) "USD" "EUR" (.ok (some 2)) none
      (some "ai analysis") rfl rfl⟩

/-- Claim C5 as amended: a missing, non-numeric, zero or negative amount
is rejected with InvalidAmount (HTTP 400, code INV-AMT), with the cache
untouched and an empty effect trace — no cache access and no network
call.  (A non-finite positive amount, however, passes validation: see the
counterexample.) -/
theorem C5_amended_invalid_amount (st : CacheState) (now : ℕ)
    (a : AmountInput) (fromC toC : String) (fetch : FetchResult)
    (g : Option String)
    (ha : a = .missing ∨ (∃ s, a = .nonNumeric s) ∨
          (∃ q, a = .num q ∧ q ≤ 0) ∨ a = .negInf) :
    convert st now a fromC toC fetch g = ⟨.err .invalidAmount, st, []⟩ ∧
    errCode .invalidAmount = "INV-AMT" ∧
    errHttpStatus .invalidAmount = 400 := by
  have hv : amountInvalid a = true := by
    rcases ha with h | ⟨s, h⟩ | ⟨q, h, hq⟩ | h
    · subst h; rfl
    · subst h; rfl
    · subst h; simp [amountInvalid, hq]
    · subst h; rfl
  exact ⟨by simp [convert, hv], rfl, rfl⟩

/-- Witness for C5 (amended): a zero amount is rejected untouched. -/
theorem C5_witness :
    convert emptyCache 0 (.num 0) "USD" "EUR" (.ok (some 2)) none =
      ⟨.err .invalidAmount, emptyCache, []⟩ ∧
    errCode .invalidAmount = "INV-AMT" ∧
    errHttpStatus .invalidAmount = 400 :=
  C5_amended_invalid_amount emptyCache 0 (.num 0) "USD" "EUR" (.ok (some 2))
    none (Or.inr (Or.inr (Or.inl ⟨0, rfl, le_refl 0⟩)))

/-- Counterexample for C5 as stated: `Infinity` (e.g. the JSON string
"1e999") is not a positive finite number, yet `!amount`, `isNaN(amount)`
and `amount <= 0` are all false for it, so the request is NOT rejected
with InvalidAmount and a live fetch is performed. -/
theorem C5_counterexample :
    amountInvalid .posInf = false ∧
    (convert emptyCache 0 .posInf "USD" "EUR" (.ok (some 2)) none).result ≠
      .err .invalidAmount ∧
    countRateFetches
      (convert emptyCache 0 .posInf "USD" "EUR" (.ok (some 2)) none).effects = 1 :=
  ⟨rfl, by decide, rfl⟩

/-- Claim C6, evaluated at the failing input: with a valid amount, a cache
miss and an upstream response whose `rates` mapping lacks the target code,
`rates[to_currency]` is `undefined`; the quote `{rate: undefined, ...}` is
cached on line 99 BEFORE `rate.toFixed(4)` throws on line 108, so the
request surfaces SRV-500 while the cache now holds a poisoned entry —
contradicting the claim that a request failing with SRV-<status> leaves
the cache unchanged.  (On a genuine axios failure the cache is unchanged,
last conjunct.) -/
theorem C6_poisoned_cache_bug :
    (convert emptyCache 0 (.num 100) "USD" "EUR" (.ok none) none).result =
      .err (.upstream 500) ∧
    errCode (.upstream 500) = "SRV-500" ∧
    (convert emptyCache 0 (.num 100) "USD" "EUR" (.ok none) none).cache ≠
      emptyCache ∧
    cacheGet (convert emptyCache 0 (.num 100) "USD" "EUR" (.ok none) none).cache
      (cacheKey "USD" "EUR") 0 =
      some ⟨none,
        "The USD is currently weakening against EUR at 1:undefined. Key drivers include Fed policy and economic growth for USD and ECB policy and energy prices for EUR. Short-term outlook appears bullish, though traders should monitor upcoming economic releases for confirmation. This automated analysis is based on typical market drivers for these currencies.",
        0⟩ ∧
    (convert emptyCache 0 (.num 100) "USD" "EUR" (.err (some 503)) none).cache =
      emptyCache :=
  ⟨rfl, rfl, by decide, rfl, rfl⟩

/-- Splitting a character list at a marker that occurs in neither prefix:
the decomposition is unique. -/
theorem split_at_underscore (l1 : List Char) :
    ∀ (l2 r1 r2 : List Char), '_' ∉ l1 → '_' ∉ l2 →
      l1 ++ '_' :: r1 = l2 ++ '_' :: r2 → l1 = l2 ∧ r1 = r2 := by
  induction l1 with
  | nil =>
    intro l2 r1 r2 _ h2 h
    cases l2 with
    | nil => simpa using h
    | cons c cs =>
      simp only [List.nil_append, List.cons_append, List.cons.injEq] at h
      exact absurd (by rw [h.1]; exact List.mem_cons_self c cs) h2
  | cons a as ih =>
    intro l2 r1 r2 h1 h2 h
    cases l2 with
    | nil =>
      simp only [List.nil_append, List.cons_append, List.cons.injEq] at h
      exact absurd (by rw [← h.1]; exact List.mem_cons_self a as) h1
    | cons c cs =>
      simp only [List.cons_append, List.cons.injEq] at h
      obtain ⟨hac, h'⟩ := h
      have h1' : '_' ∉ as := fun hm => h1 (List.mem_cons_of_mem a hm)
      have h2' : '_' ∉ cs := fun hm => h2 (List.mem_cons_of_mem c hm)
      obtain ⟨he, hr⟩ := ih cs r1 r2 h1' h2' h'
      exact ⟨by rw [hac, he], hr⟩

/-- For codes free of the delimiter, the cache key determines the ordered
pair: the reversed pair of distinct codes has a different key. -/
theorem cacheKey_ne_of_underscore_free {b t : String} (hb : '_' ∉ b.data)
    (ht : '_' ∉ t.data) (hne : b ≠ t) : cacheKey b t ≠ cacheKey t b := by
  intro h
  have hd := congrArg String.data h
  simp only [cacheKey, CACHE_PREFIX, String.data_append, List.append_assoc] at hd
  have hd2 := List.append_cancel_left hd
  simp only [List.singleton_append] at hd2
  obtain ⟨he, -⟩ := split_at_underscore b.data t.data t.data b.data hb ht hd2
  exact hne (String.ext he)

/-- When both codes have defined drivers, the inbuilt analysis yields
text that is decomposable around its first embedding of the base code. -/
theorem gen_decomp_base (b t : String) (r : RateInput) (db dt : List String)
    (hdb : driversOf b = some db) (hdt : driversOf t = some dt) :
    generateInbuiltAnalysis b t r =
      some ("The " ++ b ++ (" is currently " ++ inbuiltTrend r ++ " against " ++ t ++
        " at 1:" ++ rateDisplay r ++ ". Key drivers include " ++
        joinTwo db ++ " for " ++ b ++ " and " ++
        joinTwo dt ++ " for " ++ t ++
        ". Short-term outlook appears " ++ inbuiltOutlook b t ++
        ", though traders should monitor upcoming economic releases for confirmation. This automated analysis is based on typical market drivers for these currencies.")) := by
  simp [generateInbuiltAnalysis, hdb, hdt, String.append_assoc]

/-- When both codes have defined drivers, the inbuilt analysis yields
text that is decomposable around its first embedding of the target code. -/
theorem gen_decomp_target (b t : String) (r : RateInput) (db dt : List String)
    (hdb : driversOf b = some db) (hdt : driversOf t = some dt) :
    generateInbuiltAnalysis b t r =
      some (("The " ++ b ++ " is currently " ++ inbuiltTrend r ++ " against ") ++ t ++
        (" at 1:" ++ rateDisplay r ++ ". Key drivers include " ++
        joinTwo db ++ " for " ++ b ++ " and " ++
        joinTwo dt ++ " for " ++ t ++
        ". Short-term outlook appears " ++ inbuiltOutlook b t ++
        ", though traders should monitor upcoming economic releases for confirmation. This automated analysis is based on typical market drivers for these currencies.")) := by
  simp [generateInbuiltAnalysis, hdb, hdt, String.append_assoc]

/-- When both codes have defined drivers, the inbuilt analysis yields a
non-empty text embedding both codes. -/
theorem gen_shape (b t : String) (r : RateInput)
    (hb : (driversOf b).isSome) (ht : (driversOf t).isSome) :
    ∃ a, generateInbuiltAnalysis b t r = some a ∧ a ≠ "" ∧
      (∃ p s, a = p ++ b ++ s) ∧ (∃ p s, a = p ++ t ++ s) := by
  obtain ⟨db, hdb⟩ := Option.isSome_iff_exists.mp hb
  obtain ⟨dt, hdt⟩ := Option.isSome_iff_exists.mp ht
  refine ⟨"The " ++ b ++ (" is currently " ++ inbuiltTrend r ++ " against " ++ t ++
      " at 1:" ++ rateDisplay r ++ ". Key drivers include " ++
      joinTwo db ++ " for " ++ b ++ " and " ++
      joinTwo dt ++ " for " ++ t ++
      ". Short-term outlook appears " ++ inbuiltOutlook b t ++
      ", though traders should monitor upcoming economic releases for confirmation. This automated analysis is based on typical market drivers for these currencies."),
    gen_decomp_base b t r db dt hdb hdt, ?_, ⟨"The ", _, rfl⟩, ?_⟩
  · intro h
    have h2 := congrArg String.length h
    simp only [String.length_append, String.length_empty] at h2
    rw [show ("The " : String).length = 4 from rfl] at h2
    omega
  · refine ⟨"The " ++ b ++ " is currently " ++ inbuiltTrend r ++ " against ",
      " at 1:" ++ rateDisplay r ++ ". Key drivers include " ++
      joinTwo db ++ " for " ++ b ++ " and " ++
      joinTwo dt ++ " for " ++ t ++
      ". Short-term outlook appears " ++ inbuiltOutlook b t ++
      ", though traders should monitor upcoming economic releases for confirmation. This automated analysis is based on typical market drivers for these currencies.", ?_⟩
    simp [String.append_assoc]

/-- Counterexample for C7 as stated: the code "valueOf" lies outside the
5-entry table, yet it does NOT get the neutral default — the lookup hits
an inherited Object.prototype member with undefined strength and drivers —
and `generateInbuiltAnalysis` yields no text at all for it (the
`.slice(0, 2)` call throws a TypeError), refuting both totality and the
unknown-code-default behaviour. -/
theorem C7_counterexample :
    generateInbuiltAnalysis "valueOf" "EUR" (.num 2) = none ∧
    currencies.find? (fun e => e.1 == "valueOf") = none ∧
    currencyInfo "valueOf" = ⟨none, none⟩ ∧
    currencyInfo "valueOf" ≠ ⟨some defaultInfo.1, some defaultInfo.2⟩ :=
  ⟨rfl, rfl, rfl, by decide⟩

/-- Claim C7 as amended: the inbuilt synthesizer is pure and deterministic;
for every pair of codes whose lookups have defined drivers (no collision
with an Object.prototype property name) and every numeric rate it returns
a non-empty text embedding both codes; the trend label is "strengthening"
exactly when rate > 1 and "weakening" otherwise; the outlook is "bullish"
exactly when the base's strength is "strong" and the target's is not; and
a code outside both the 5-entry table and the prototype property names
gets the neutral default strength and drivers.  For colliding codes the
function throws (see the counterexample). -/
theorem C7_amended_inbuilt_synthesis (b t : String) (q : ℚ)
    (hb : (driversOf b).isSome) (ht : (driversOf t).isSome) :
    (∃ a, generateInbuiltAnalysis b t (.num q) = some a ∧ a ≠ "" ∧
      (∃ p s, a = p ++ b ++ s) ∧ (∃ p s, a = p ++ t ++ s)) ∧
    (inbuiltTrend (.num q) = "strengthening" ↔ 1 < q) ∧
    (inbuiltTrend (.num q) = "weakening" ↔ ¬ 1 < q) ∧
    (inbuiltOutlook b t = "bullish" ↔
      strengthOf b = some "strong" ∧ ¬ strengthOf t = some "strong") ∧
    (inbuiltOutlook b t = "neutral" ↔
      ¬(strengthOf b = some "strong" ∧ ¬ strengthOf t = some "strong")) ∧
    (currencies.find? (fun e => e.1 == b) = none →
      objectPrototypeKeys.contains b = false →
      currencyInfo b = ⟨some "neutral",
        some ["interest rates", "economic data", "geopolitical factors"]⟩) := by
  refine ⟨gen_shape b t (.num q) hb ht, ?_, ?_, ?_, ?_, ?_⟩
  · by_cases h : 1 < q
    · simp [inbuiltTrend, parseFloatGtOne, h]
    · simp [inbuiltTrend, parseFloatGtOne, h]
  · by_cases h : 1 < q
    · simp [inbuiltTrend, parseFloatGtOne, h]
    · simp [inbuiltTrend, parseFloatGtOne, h]
  · by_cases hcond :
      (strengthOf b == some "strong" && !(strengthOf t == some "strong")) = true
    · have hp : strengthOf b = some "strong" ∧ ¬ strengthOf t = some "strong" := by
        simpa [Bool.and_eq_true, beq_iff_eq, Bool.not_eq_true',
          beq_eq_false_iff_ne] using hcond
      simp only [inbuiltOutlook, if_pos hcond]
      exact iff_of_true trivial hp
    · have hp : ¬(strengthOf b = some "strong" ∧ ¬ strengthOf t = some "strong") := by
        intro hc
        exact hcond (by
          simp [Bool.and_eq_true, beq_iff_eq, Bool.not_eq_true',
            beq_eq_false_iff_ne, hc.1, hc.2])
      simp only [inbuiltOutlook, if_neg hcond]
      exact iff_of_false (by decide) hp
  · by_cases hcond :
      (strengthOf b == some "strong" && !(strengthOf t == some "strong")) = true
    · have hp : strengthOf b = some "strong" ∧ ¬ strengthOf t = some "strong" := by
        simpa [Bool.and_eq_true, beq_iff_eq, Bool.not_eq_true',
          beq_eq_false_iff_ne] using hcond
      simp only [inbuiltOutlook, if_pos hcond]
      exact iff_of_false (by decide) (fun hn => hn hp)
    · have hp : ¬(strengthOf b = some "strong" ∧ ¬ strengthOf t = some "strong") := by
        intro hc
        exact hcond (by
          simp [Bool.and_eq_true, beq_iff_eq, Bool.not_eq_true',
            beq_eq_false_iff_ne, hc.1, hc.2])
      simp only [inbuiltOutlook, if_neg hcond]
      exact iff_of_true trivial hp
  · intro hf hp
    have hp2 : b ∉ objectPrototypeKeys := by simpa using hp
    simp [currencyInfo, hf, hp2, defaultInfo]

/-- Witness for C7 (amended) at base USD (strong), target ZZZ (outside
the table AND outside the prototype property names), rate 2. -/
theorem C7_witness :
    (∃ a, generateInbuiltAnalysis "USD" "ZZZ" (.num 2) = some a ∧ a ≠ "") ∧
    inbuiltTrend (.num (2 : ℚ)) = "strengthening" ∧
    inbuiltOutlook "USD" "ZZZ" = "bullish" ∧
    currencyInfo "ZZZ" = ⟨some "neutral",
      some ["interest rates", "economic data", "geopolitical factors"]⟩ := by
  have h := C7_amended_inbuilt_synthesis "USD" "ZZZ" (2 : ℚ) rfl rfl
  have h2 := C7_amended_inbuilt_synthesis "ZZZ" "USD" (2 : ℚ) rfl rfl
  obtain ⟨a, ha, hne, -, -⟩ := h.1
  exact ⟨⟨a, ha, hne⟩, h.2.1.mpr (by norm_num),
    h.2.2.2.1.mpr (by decide),
    h2.2.2.2.2.2 (by decide) (by decide)⟩

/-- Counterexample for C8 as stated: the distinct codes "X" and "X_X"
collide with their own reversal — the key of (X, X_X) equals the key of
(X_X, X), so the entry cached for the first pair satisfies a lookup for
the reversed pair. -/
theorem C8_counterexample :
    "X" ≠ "X_X" ∧
    cacheKey "X" "X_X" = cacheKey "X_X" "X" ∧
    cacheGet (cacheSet emptyCache (cacheKey "X" "X_X") ⟨some 1, "analysis", 0⟩ 0)
      (cacheKey "X_X" "X") 0 = some ⟨some 1, "analysis", 0⟩ :=
  ⟨by decide, rfl, rfl⟩

/-- Claim C8 as amended: for distinct currency codes neither of which
contains the delimiter character underscore, the ordered-pair cache key is
asymmetric — the reversed pair has a different key, and an entry stored
for (base, target) does not satisfy a lookup for (target, base). -/
theorem C8_amended_key_asymmetry (b t : String) (hb : '_' ∉ b.data)
    (ht : '_' ∉ t.data) (hne : b ≠ t) (q : RateQuote) (now now' : ℕ) :
    cacheKey b t ≠ cacheKey t b ∧
    cacheGet (cacheSet emptyCache (cacheKey b t) q now) (cacheKey t b) now' =
      none := by
  have hk := cacheKey_ne_of_underscore_free hb ht hne
  refine ⟨hk, ?_⟩
  simp [cacheGet, cacheSet, emptyCache, beq_eq_false_iff_ne.mpr hk]

/-- Witness for C8 (amended) at the spec's example pair (USD, EUR). -/
theorem C8_witness :
    cacheKey "USD" "EUR" ≠ cacheKey "EUR" "USD" ∧
    cacheGet (cacheSet emptyCache (cacheKey "USD" "EUR") ⟨some 1, "analysis", 0⟩ 0)
      (cacheKey "EUR" "USD") 0 = none :=
  C8_amended_key_asymmetry "USD" "EUR" (by decide) (by decide) (by decide)
    ⟨some 1, "analysis", 0⟩ 0 0

/-- Counterexample for C9 as stated: a non-numeric rate is not raised as a
domain error at (USD, EUR) — `parseFloat("abc")` is NaN, `NaN > 1` is
false, and an ordinary non-empty commentary with trend "weakening" is
produced. -/
theorem C9_counterexample :
    inbuiltTrend (.nonNumeric "abc") = "weakening" ∧
    generateInbuiltAnalysis "USD" "EUR" (.nonNumeric "abc") =
      some "The USD is currently weakening against EUR at 1:abc. Key drivers include Fed policy and economic growth for USD and ECB policy and energy prices for EUR. Short-term outlook appears bullish, though traders should monitor upcoming economic releases for confirmation. This automated analysis is based on typical market drivers for these currencies." :=
  ⟨rfl, rfl⟩

/-- Claim C9 as amended: the rate input is never the source of an error in
`generateInbuiltAnalysis` — whether the function throws depends only on
the currency codes (Object.prototype collisions), never on the rate; a
non-numeric, undefined or non-finite rate is absorbed by `parseFloat`,
whose NaN compares false against 1, giving trend "weakening"
(+Infinity gives "strengthening"); and for codes with defined drivers a
normal non-empty commentary embedding both codes is still produced. -/
theorem C9_amended_rate_absorbed (b t s : String) :
    inbuiltTrend (.nonNumeric s) = "weakening" ∧
    inbuiltTrend .undef = "weakening" ∧
    inbuiltTrend .negInf = "weakening" ∧
    inbuiltTrend .posInf = "strengthening" ∧
    (∀ r1 r2 : RateInput,
      (generateInbuiltAnalysis b t r1).isSome =
        (generateInbuiltAnalysis b t r2).isSome) ∧
    ((driversOf b).isSome → (driversOf t).isSome →
      ∃ a, generateInbuiltAnalysis b t (.nonNumeric s) = some a ∧ a ≠ "" ∧
        (∃ p u, a = p ++ b ++ u) ∧ (∃ p u, a = p ++ t ++ u)) := by
  refine ⟨rfl, rfl, rfl, rfl, ?_, ?_⟩
  · intro r1 r2
    cases hdb : driversOf b with
    | none => simp [generateInbuiltAnalysis, hdb]
    | some db =>
      cases hdt : driversOf t with
      | none => simp [generateInbuiltAnalysis, hdb, hdt]
      | some dt => simp [generateInbuiltAnalysis, hdb, hdt]
  · intro hb ht
    exact gen_shape b t (.nonNumeric s) hb ht

/-- Witness for C9 (amended) at (USD, EUR) with the unparsable rate
string "abc". -/
theorem C9_witness :
    inbuiltTrend (.nonNumeric "abc") = "weakening" ∧
    (∃ a, generateInbuiltAnalysis "USD" "EUR" (.nonNumeric "abc") = some a ∧
      a ≠ "") := by
  have h := C9_amended_rate_absorbed "USD" "EUR" "abc"
  obtain ⟨a, ha, hne, -, -⟩ := h.2.2.2.2.2 rfl rfl
  exact ⟨h.1, a, ha, hne⟩

/-- Claim C10: the cache key is not injective over pass-through currency
strings: the distinct pairs (A, B_C) and (A_B, C) share a key, and a quote
cached by a conversion for the first pair is served, within the TTL, as a
cache hit (with no new fetch) to a conversion for the second pair. -/
theorem C10_key_collision :
    ("A", "B_C") ≠ ("A_B", "C") ∧
    cacheKey "A" "B_C" = cacheKey "A_B" "C" ∧
    (∃ a, generateInbuiltAnalysis "A" "B_C" (.num (92/100)) = some a ∧
      (convert (convert emptyCache 0 (.num 100) "A" "B_C" (.ok (some (92/100))) none).cache
          10 (.num 50) "A_B" "C" (.err none) none).result =
        .ok { from_currency := none, to_currency := none,
              amountEcho := some (.num 50),
              rate := some (92/100),
              converted_amount := some (roundTo 2 (50 * (92/100))),
              analysis := a,
              timestamp := 0, cached := some true, source := none }) ∧
    countRateFetches
      (convert (convert emptyCache 0 (.num 100) "A" "B_C" (.ok (some (92/100))) none).cache
        10 (.num 50) "A_B" "C" (.err none) none).effects = 0 :=
  ⟨by decide, rfl, ⟨_, rfl, by rfl⟩, rfl⟩

end DaSponge
